import Mathlib

/-!
# Verification of the glowberry background-engine core

Shallow embedding of the glowberry repository's core logic, translated from
the Rust sources:

* `src/config/src/power_saving.rs` — power-saving configuration and defaults;
* `src/crates/glowberry-lib/src/upower.rs` — `PowerState`;
* `src/crates/glowberry-lib/src/engine.rs` — `should_pause_animation`,
  `effective_frame_rate`, `shader_physical_size`, GPU-layer initialization and
  reconfiguration, the frame-callback handler, the image-source event handler;
* `src/crates/glowberry-lib/src/fragment_canvas.rs` — language detection,
  shader-source build, row alignment, texture upload padding, frame pacing;
* `src/crates/glowberry-lib/src/user_context.rs` — environment scope.

Machine integers are modelled as `Nat` with explicit `% 2^32` where u32
overflow matters; `f64` battery percentages are modelled as `ℚ` (only order
comparisons are performed on them, never arithmetic, so the ordering agrees
with the `f64` ordering on the exactly representable values involved).
-/

namespace Glowberry

/-! ## Power-saving configuration (`src/config/src/power_saving.rs`) -/

/-- `OnBatteryAction` from power_saving.rs; `Nothing` carries `#[default]`. -/
inductive OnBatteryAction where
  | nothing
  | pause
  | reduceTo15Fps
  | reduceTo10Fps
  | reduceTo5Fps
deriving DecidableEq, Repr

/-- The `#[default]` variant of the `OnBatteryAction` enum. -/
def OnBatteryAction.enumDefault : OnBatteryAction := .nothing

/-- `OnBatteryAction::frame_rate` from power_saving.rs. -/
def OnBatteryAction.frameRate : OnBatteryAction → Option Nat
  | .nothing => none
  | .pause => none
  | .reduceTo15Fps => some 15
  | .reduceTo10Fps => some 10
  | .reduceTo5Fps => some 5

/-- `PowerSavingConfig` from power_saving.rs (u8 fields as `Nat`). -/
structure PowerSavingConfig where
  pause_on_fullscreen : Bool
  pause_on_covered : Bool
  coverage_threshold : Nat
  adjust_on_battery : Bool
  on_battery_action : OnBatteryAction
  pause_on_low_battery : Bool
  low_battery_threshold : Nat
  pause_on_lid_closed : Bool
deriving DecidableEq, Repr

/-- `impl Default for PowerSavingConfig` from power_saving.rs lines 83–96. -/
def PowerSavingConfig.rustDefault : PowerSavingConfig where
  pause_on_fullscreen := false
  pause_on_covered := false
  coverage_threshold := 90
  adjust_on_battery := false
  on_battery_action := .pause
  pause_on_low_battery := true
  low_battery_threshold := 20
  pause_on_lid_closed := true

/-- A cosmic-config store holding at most one value per power-saving key,
as read by `PowerSavingConfig::load` (each `get` may fail). -/
structure PowerSavingStore where
  pause_on_fullscreen : Option Bool
  pause_on_covered : Option Bool
  coverage_threshold : Option Nat
  adjust_on_battery : Option Bool
  on_battery_action : Option OnBatteryAction
  pause_on_low_battery : Option Bool
  low_battery_threshold : Option Nat
  pause_on_lid_closed : Option Bool

/-- A store from which every `get` fails (empty config store). -/
def PowerSavingStore.empty : PowerSavingStore where
  pause_on_fullscreen := none
  pause_on_covered := none
  coverage_threshold := none
  adjust_on_battery := none
  on_battery_action := none
  pause_on_low_battery := none
  low_battery_threshold := none
  pause_on_lid_closed := none

/-- `PowerSavingConfig::load` from power_saving.rs lines 100–114: each key is
read with `unwrap_or` of the per-key fallback; `on_battery_action` uses
`unwrap_or_default`, i.e. the enum's `#[default]` variant `Nothing`. -/
def PowerSavingConfig.load (s : PowerSavingStore) : PowerSavingConfig where
  pause_on_fullscreen := s.pause_on_fullscreen.getD false
  pause_on_covered := s.pause_on_covered.getD false
  coverage_threshold := s.coverage_threshold.getD 90
  adjust_on_battery := s.adjust_on_battery.getD false
  on_battery_action := s.on_battery_action.getD OnBatteryAction.enumDefault
  pause_on_low_battery := s.pause_on_low_battery.getD true
  low_battery_threshold := s.low_battery_threshold.getD 20
  pause_on_lid_closed := s.pause_on_lid_closed.getD true

/-! ## Power state (`src/crates/glowberry-lib/src/upower.rs`) -/

/-- `PowerState` from upower.rs. The `f64` battery percentage is modelled as
`ℚ`; the code only compares it against a `u8` threshold. -/
structure PowerState where
  on_battery : Bool
  battery_percentage : Option ℚ
  lid_is_closed : Bool
deriving DecidableEq

/-- `impl Default for PowerState` from upower.rs lines 63–71. -/
def PowerState.default : PowerState where
  on_battery := false
  battery_percentage := none
  lid_is_closed := false

/-! ## Pause policy (`engine.rs`, `CosmicBg::should_pause_animation`) -/

/-- `CosmicBg::should_pause_animation` from engine.rs lines 479–524.
`powerMonitor` is `None` when `self.power_monitor` is absent; when present it
carries the monitor's current `PowerState` snapshot. -/
def shouldPauseAnimation (powerMonitor : Option PowerState)
    (config : PowerSavingConfig) : Bool :=
  match powerMonitor with
  | none => false
  | some powerState =>
    if config.pause_on_lid_closed && powerState.lid_is_closed then
      true
    else if config.pause_on_low_battery
        && (match powerState.battery_percentage with
            | some percentage => decide (percentage ≤ (config.low_battery_threshold : ℚ))
            | none => false) then
      true
    else if powerState.on_battery
        && (match config.on_battery_action with
            | .pause => true
            | .nothing | .reduceTo15Fps | .reduceTo10Fps | .reduceTo5Fps => false) then
      true
    else
      false

/-- `CosmicBg::effective_frame_rate` from engine.rs lines 528–540. -/
def effectiveFrameRate (powerMonitor : Option PowerState)
    (config : PowerSavingConfig) : Option Nat :=
  match powerMonitor with
  | none => none
  | some powerState =>
    if powerState.on_battery then config.on_battery_action.frameRate else none

/-! ## Fragment canvas (`src/crates/glowberry-lib/src/fragment_canvas.rs`) -/

/-- `ShaderLanguage` from glowberry-config (only the two variants the core
consumes; see spec §3 `ShaderSource.language ∈ {Wgsl, Glsl}`). -/
inductive ShaderLanguage where
  | wgsl
  | glsl
deriving DecidableEq, Repr

/-- A filesystem path, abstracted to the piece the core inspects:
`std::path::Path::extension()`. -/
structure FsPath where
  extension : Option String
deriving DecidableEq, Repr

/-- `ShaderContent` from glowberry-config: a shader is given by a file path or
by inline code. -/
inductive ShaderContent where
  | path (p : FsPath)
  | code (text : String)
deriving DecidableEq, Repr

/-- `ShaderSource` from glowberry-config (spec §3). -/
structure ShaderSource where
  shader : ShaderContent
  background_image : Option FsPath
  language : ShaderLanguage
  frame_rate : Nat
deriving DecidableEq, Repr

/-- `ShaderError` from fragment_canvas.rs lines 56–66 (payloads of the
`Io`/`ImageLoad` variants are irrelevant to control flow and dropped). -/
inductive ShaderError where
  | io
  | imageLoad
  | unsupportedLanguage (language : ShaderLanguage)
deriving DecidableEq, Repr

/-- `detect_language` from fragment_canvas.rs lines 68–79. -/
def detectLanguage (source : ShaderSource) : ShaderLanguage :=
  match source.shader with
  | .path p =>
    if p.extension.elim false (fun ext => ext = "glsl" || ext = "frag") then
      .glsl
    else
      source.language
  | .code _ => source.language

/-- `WGSL_PREAMBLE` from fragment_canvas.rs lines 18–22. -/
def WGSL_PREAMBLE : String :=
  "\n// GlowBerry live wallpaper uniforms\n@group(0) @binding(0) var<uniform> iResolution: vec2f;\n@group(0) @binding(1) var<uniform> iTime: f32;\n"

/-- `WGSL_PREAMBLE_WITH_TEXTURE` from fragment_canvas.rs lines 25–31. -/
def WGSL_PREAMBLE_WITH_TEXTURE : String :=
  "\n// GlowBerry live wallpaper uniforms\n@group(0) @binding(0) var<uniform> iResolution: vec2f;\n@group(0) @binding(1) var<uniform> iTime: f32;\n@group(0) @binding(2) var iTexture: texture_2d<f32>;\n@group(0) @binding(3) var iTextureSampler: sampler;\n"

/-- `build_shader_source` from fragment_canvas.rs lines 111–128: Wgsl
prepends the preamble, Glsl fails with `UnsupportedLanguage(Glsl)`. -/
def buildShaderSource (language : ShaderLanguage) (preamble shaderCode : String) :
    Except ShaderError String :=
  match language with
  | .wgsl => .ok (preamble ++ "\n" ++ shaderCode)
  | .glsl => .error (.unsupportedLanguage .glsl)

/-- Frame-pacing state of a `FragmentCanvas` (the `frame_interval` and
`configured_frame_rate` fields). `Duration` is modelled as `ℚ` seconds
(`Duration::from_secs_f64(1.0 / rate)`, nanosecond rounding abstracted). -/
structure CanvasPacing where
  configuredFrameRate : Nat
  frameInterval : ℚ
deriving DecidableEq, Repr

/-- `FragmentCanvas::set_frame_rate_override` from fragment_canvas.rs lines
469–474. -/
def CanvasPacing.setFrameRateOverride (pacing : CanvasPacing)
    (frameRate : Option Nat) : CanvasPacing :=
  let effectiveRate := min (max (frameRate.getD pacing.configuredFrameRate) 1) 60
  { pacing with frameInterval := 1 / (effectiveRate : ℚ) }

/-- The part of `FragmentCanvas::new` after the shader text is in hand
(fragment_canvas.rs lines 167–391): detect the language, load the optional
background texture (`image::open(img_path)?`, outcome `imageLoadOk`),
choose the preamble, build the shader source (the `?` at line 339), and
compute the frame pacing (lines 377–390). GPU resource creation itself is
infallible in the source (no `?`). -/
def fragmentCanvasBuild (source : ShaderSource) (shaderCode : String)
    (imageLoadOk : Bool) : Except ShaderError CanvasPacing :=
  let language := detectLanguage source
  if source.background_image.isSome && !imageLoadOk then
    .error .imageLoad
  else
    let preamble :=
      if source.background_image.isSome then WGSL_PREAMBLE_WITH_TEXTURE
      else WGSL_PREAMBLE
    match buildShaderSource language preamble shaderCode with
    | .error e => .error e
    | .ok _fullShader =>
      let configuredFrameRate := min (max source.frame_rate 1) 60
      .ok
        { configuredFrameRate := configuredFrameRate
          frameInterval := 1 / (configuredFrameRate : ℚ) }

/-- The error/pacing skeleton of `FragmentCanvas::new` (fragment_canvas.rs
lines 153–391). IO outcomes of the environment are inputs: `fsRead` is the
result of `std::fs::read_to_string(path)?` when the shader is a `Path`
(inline code never fails to load), and `imageLoadOk` whether `image::open`
succeeds when a background image is configured. -/
def fragmentCanvasNew (source : ShaderSource) (fsRead : Option String)
    (imageLoadOk : Bool) : Except ShaderError CanvasPacing :=
  match source.shader with
  | .path _ =>
    match fsRead with
    | some text => fragmentCanvasBuild source text imageLoadOk
    | none => .error .io
  | .code code => fragmentCanvasBuild source code imageLoadOk

/-! ## Physical sizes (`engine.rs`) -/

/-- u32 multiplication (wrapping, as compiled in release mode). -/
def u32Mul (a b : Nat) : Nat := a * b % 2 ^ 32

/-- `CosmicBg::shader_physical_size` from engine.rs lines 542–559. -/
def shaderPhysicalSize (layerSize : Option (Nat × Nat))
    (fractionalScale : Option Nat) (outputModeDims : Option (Nat × Nat)) :
    Nat × Nat :=
  match layerSize with
  | some (w, h) =>
    let scale := fractionalScale.getD 120
    (u32Mul w scale / 120, u32Mul h scale / 120)
  | none =>
    match outputModeDims with
    | some (w, h) => (w, h)
    | none =>
      let w := 1920
      let h := 1080
      let scale := fractionalScale.getD 120
      (u32Mul w scale / 120, u32Mul h scale / 120)

/-- The physical dimensions chosen by `CosmicBg::init_gpu_layer_internal`
(engine.rs lines 708–719): the current output mode when present, else the
layer size (default 1920×1080) scaled by `fractional_scale / 120`. -/
def initPhysicalSize (layerSize : Option (Nat × Nat))
    (fractionalScale : Option Nat) (outputModeDims : Option (Nat × Nat)) :
    Nat × Nat :=
  match outputModeDims with
  | some (w, h) => (w, h)
  | none =>
    let (w, h) := layerSize.getD (1920, 1080)
    let scale := fractionalScale.getD 120
    (u32Mul w scale / 120, u32Mul h scale / 120)

/-- Modelled from the spec: `gpu::configure_surface(surface, w, h)` (module
`gpu` is not in the extracted sources). Per spec §4.E it selects format,
presentation mode, and alpha, and configures the surface at exactly the
requested dimensions; only the resulting `(width, height)` is modelled. -/
def configureSurface (w h : Nat) : Nat × Nat := (w, h)

/-- Geometry of a `CosmicBgLayer` relevant to physical-size resolution:
`size`, `fractional_scale`, and the current output mode's dimensions. -/
structure LayerGeom where
  size : Option (Nat × Nat)
  fractionalScale : Option Nat
  outputModeDims : Option (Nat × Nat)
deriving DecidableEq, Repr

/-- The `surface_config` dimensions produced by
`CosmicBg::update_shader_layer_surface` (engine.rs lines 572–598): the
surface is reconfigured at `shader_layer_physical_size`. -/
def updateShaderLayerSurfaceDims (geom : LayerGeom) : Nat × Nat :=
  let (physicalW, physicalH) :=
    shaderPhysicalSize geom.size geom.fractionalScale geom.outputModeDims
  configureSurface physicalW physicalH

/-- The `surface_config` dimensions produced by
`CosmicBg::init_gpu_layer_internal` (engine.rs lines 708–732). -/
def initSurfaceConfigDims (geom : LayerGeom) : Nat × Nat :=
  let (physicalW, physicalH) :=
    initPhysicalSize geom.size geom.fractionalScale geom.outputModeDims
  configureSurface physicalW physicalH

/-! ## The frame-callback handler (`engine.rs`, `CompositorHandler::frame`) -/

/-- Outcome of `wgpu::Surface::get_current_texture` for one frame. -/
inductive SurfaceAcquire where
  | ok
  | timeout
  | lost
  | outdated
  | outOfMemory
  | otherError
deriving DecidableEq, Repr

/-- Observable effects of one frame callback on one layer. -/
structure FrameEffects where
  rendered : Bool
  presented : Bool
  markedFrameRendered : Bool
  reconfiguredSurface : Bool
  requestedFrameCallback : Bool
  committed : Bool
deriving DecidableEq, Repr

/-- State carried by a GPU layer across a frame callback. -/
structure FrameLayerState where
  surfaceConfigDims : Nat × Nat
  pacing : CanvasPacing
deriving DecidableEq, Repr

/-- `CompositorHandler::frame` from engine.rs lines 821–919, for the layer
matching the surface. `hasGpuState` is whether `layer.gpu_state` is `Some`;
`shouldPause` is the result of `should_pause_animation`; `shouldRender` the
result of `canvas.should_render()` (time-dependent, hence an input);
`gpuPresent` whether `self.gpu_renderer` is `Some`; `acquire` the outcome of
`get_current_texture`. Returns the layer state after the callback and the
effects performed. -/
def frameCallback (hasGpuState : Bool) (shouldPause : Bool)
    (shouldRender : Bool) (gpuPresent : Bool) (acquire : SurfaceAcquire)
    (st : FrameLayerState) : FrameLayerState × FrameEffects :=
  if hasGpuState then
    let stfx : FrameLayerState × FrameEffects :=
      if !shouldPause then
        if shouldRender then
          if gpuPresent then
            match acquire with
            | .ok =>
              (st,
               { rendered := true, presented := true,
                 markedFrameRendered := true, reconfiguredSurface := false,
                 requestedFrameCallback := false, committed := false })
            | .timeout =>
              (st,
               { rendered := false, presented := false,
                 markedFrameRendered := false, reconfiguredSurface := false,
                 requestedFrameCallback := false, committed := false })
            | .lost | .outdated =>
              let width := st.surfaceConfigDims.1
              let height := st.surfaceConfigDims.2
              ({ st with surfaceConfigDims := configureSurface width height },
               { rendered := false, presented := false,
                 markedFrameRendered := false, reconfiguredSurface := true,
                 requestedFrameCallback := false, committed := false })
            | .outOfMemory | .otherError =>
              (st,
               { rendered := false, presented := false,
                 markedFrameRendered := false, reconfiguredSurface := false,
                 requestedFrameCallback := false, committed := false })
          else
            (st,
             { rendered := false, presented := false,
               markedFrameRendered := false, reconfiguredSurface := false,
               requestedFrameCallback := false, committed := false })
        else
          (st,
           { rendered := false, presented := false,
             markedFrameRendered := false, reconfiguredSurface := false,
             requestedFrameCallback := false, committed := false })
      else
        (st,
         { rendered := false, presented := false,
           markedFrameRendered := false, reconfiguredSurface := false,
           requestedFrameCallback := false, committed := false })
    -- engine.rs lines 911–914: always re-request the frame callback and
    -- commit for a layer with GPU state
    (stfx.1, { stfx.2 with requestedFrameCallback := true, committed := true })
  else
    (st,
     { rendered := false, presented := false,
       markedFrameRendered := false, reconfiguredSurface := false,
       requestedFrameCallback := false, committed := false })

/-! ## Image-source watcher events (`engine.rs`, lines 272–304) -/

/-- The `notify` event kinds the handler distinguishes:
`Create(_)`, `Modify(Name(To))`, `Remove(_)`, `Modify(Name(From))`, rest. -/
inductive ImgEventKind where
  | create
  | renameTo
  | remove
  | renameFrom
  | otherKind
deriving DecidableEq, Repr

/-- A `notify::Event`: its kind and its list of paths. -/
structure ImgEvent where
  kind : ImgEventKind
  paths : List String
deriving DecidableEq, Repr

/-- The slice of a `Wallpaper` the image-source handler touches: its entry's
`output` selector and its `image_queue` (front of the list = front of the
`VecDeque`). -/
structure WallpaperQueue where
  output : String
  image_queue : List String
deriving DecidableEq, Repr

/-- The image-source event handler from `BackgroundEngine::run_with_stop`
(engine.rs lines 272–304): on `Create`/`Rename(To)` it pushes each unknown
event path to the front of the queue of every wallpaper bound to `source`,
then retains only the queue entries not among the event paths; on
`Remove`/`Rename(From)` it retains only entries not among the event paths;
other kinds are ignored. -/
def applyImgSourceEvent (source : String) (event : ImgEvent)
    (wallpapers : List WallpaperQueue) : List WallpaperQueue :=
  match event.kind with
  | .create | .renameTo =>
    wallpapers.map fun w =>
      if w.output = source then
        let queue := event.paths.foldl
          (fun queue p => if queue.contains p then queue else p :: queue)
          w.image_queue
        { w with image_queue := queue.filter (fun p => !event.paths.contains p) }
      else w
  | .remove | .renameFrom =>
    wallpapers.map fun w =>
      if w.output = source then
        { w with
          image_queue := w.image_queue.filter (fun p => !event.paths.contains p) }
      else w
  | .otherKind => wallpapers

/-! ## GPU-state lifecycle of a layer (`engine.rs`) -/

/-- Per-layer lifecycle state tracked for the `gpu_state` invariant:
whether the owning wallpaper's source is a `Shader`, whether the layer has
received at least one configure, and whether `gpu_state` is `Some`. -/
structure LayerLife where
  isShader : Bool
  configured : Bool
  gpuState : Bool
deriving DecidableEq, Repr

/-- Events that reach a live layer. `configure canvasOk` is a
`LayerShellHandler::configure` for this layer, where `canvasOk` is whether
`FragmentCanvas::new` succeeds if initialization is attempted; the other
events (`frame`, scale/output updates) never touch `gpu_state`. -/
inductive LayerEvent where
  | configure (canvasOk : Bool)
  | frameEvent
  | scaleOrOutputUpdate
deriving DecidableEq, Repr

/-- One layer event, following engine.rs:
* `configure` (lines 1087–1161) records the size and, for a shader
  wallpaper with absent `gpu_state`, runs `init_gpu_layer_internal`
  (lines 688–780), which attaches `gpu_state` exactly when
  `FragmentCanvas::new` returns `Ok`; with `gpu_state` present it only
  reconfigures; for a static wallpaper it manages the SHM pool;
* frame callbacks and scale/output updates (lines 783–819, 985–1026,
  1179–1224) reconfigure or draw but never attach or detach `gpu_state`. -/
def layerStep (st : LayerLife) (e : LayerEvent) : LayerLife :=
  match e with
  | .configure canvasOk =>
    if st.isShader then
      if st.gpuState then
        { st with configured := true }
      else
        { st with configured := true, gpuState := canvasOk }
    else
      { st with configured := true }
  | .frameEvent | .scaleOrOutputUpdate => st

/-- A freshly created layer (`CosmicBg::new_layer`, engine.rs lines 648–685):
`size = None`, `gpu_state = None`. -/
def newLayer (isShader : Bool) : LayerLife :=
  { isShader := isShader, configured := false, gpuState := false }

/-- The layer state after a sequence of events starting from creation. -/
def runLayer (isShader : Bool) (events : List LayerEvent) : LayerLife :=
  events.foldl layerStep (newLayer isShader)

/-! ## User-environment scope (`src/crates/glowberry-lib/src/user_context.rs`) -/

/-- The process environment: a partial map from variable names to values. -/
def EnvMap : Type := String → Option String

/-- `std::env::set_var`. -/
def setVar (env : EnvMap) (key value : String) : EnvMap :=
  fun k => if k = key then some value else env k

/-- `std::env::remove_var`. -/
def removeVar (env : EnvMap) (key : String) : EnvMap :=
  fun k => if k = key then none else env k

/-- `UserContext::apply` from user_context.rs lines 21–34: for each
`(key, value)` pair in order, record the current value of `key`
(`std::env::var_os`) and then set it; returns the final environment and the
guard's `previous` list, in application (push) order: the head is the entry
recorded first. -/
def applyVars : List (String × String) → EnvMap →
    EnvMap × List (String × Option String)
  | [], env => (env, [])
  | (key, value) :: rest, env =>
    let current := env key
    let applied := applyVars rest (setVar env key value)
    (applied.1, (key, current) :: applied.2)

/-- One restore step of `impl Drop for EnvGuard` (user_context.rs lines
41–60): restore the recorded prior value, or remove the key if it was
absent. -/
def restoreVar (env : EnvMap) (entry : String × Option String) : EnvMap :=
  match entry.2 with
  | some value => setVar env entry.1 value
  | none => removeVar env entry.1

/-- `impl Drop for EnvGuard`: drain `previous` in reverse order, restoring
each entry. -/
def envGuardDrop (previous : List (String × Option String)) (env : EnvMap) :
    EnvMap :=
  previous.reverse.foldl restoreVar env

/-! ## Texture upload padding (`fragment_canvas.rs`, lines 81–109) -/

/-- `wgpu::COPY_BYTES_PER_ROW_ALIGNMENT`. -/
def COPY_BYTES_PER_ROW_ALIGNMENT : Nat := 256

/-- u32 saturating multiplication (`u32::saturating_mul`). -/
def u32SatMul (a b : Nat) : Nat := min (a * b) (2 ^ 32 - 1)

/-- `aligned_bytes_per_row` from fragment_canvas.rs lines 81–86. The
intermediate u32 sum `unpadded + alignment - 1` wraps modulo `2^32` (release
semantics); `unpadded + alignment ≥ 1`, so the wrapped value is
`(unpadded + alignment - 1) % 2^32`. -/
def alignedBytesPerRow (width bytesPerPixel : Nat) : Nat :=
  let unpadded := u32SatMul width bytesPerPixel
  let alignment := COPY_BYTES_PER_ROW_ALIGNMENT
  (unpadded + alignment - 1) % 2 ^ 32 / alignment * alignment

/-- `padded[dst_offset..dst_offset+src.len()].copy_from_slice(src)`; every
use below is in range. -/
def writeSlice (buf : List Nat) (offset : Nat) (src : List Nat) : List Nat :=
  buf.take offset ++ src ++ buf.drop (offset + src.length)

/-- The body of the row loop in `texture_upload_data` (fragment_canvas.rs
lines 99–106): copy the source row `row` into the padded buffer at the
aligned offset. -/
def uploadWriteRow (rgba : List Nat) (unpaddedBytesPerRow bytesPerRow : Nat)
    (padded : List Nat) (row : Nat) : List Nat :=
  let srcOffset := u32Mul row unpaddedBytesPerRow
  let dstOffset := u32Mul row bytesPerRow
  let srcEnd := srcOffset + unpaddedBytesPerRow
  writeSlice padded dstOffset ((rgba.drop srcOffset).take (srcEnd - srcOffset))

/-- `texture_upload_data` from fragment_canvas.rs lines 88–109 (bytes as
`Nat`; `Cow` borrowing is immaterial). -/
def textureUploadData (rgba : List Nat) (width height : Nat) :
    List Nat × Nat × Nat :=
  let bytesPerPixel := 4
  let unpaddedBytesPerRow := u32SatMul width bytesPerPixel
  let bytesPerRow := alignedBytesPerRow width bytesPerPixel
  if bytesPerRow = unpaddedBytesPerRow then
    (rgba, bytesPerRow, height)
  else
    let padded := List.replicate (u32Mul bytesPerRow height) 0
    let padded := (List.range height).foldl
      (uploadWriteRow rgba unpaddedBytesPerRow bytesPerRow) padded
    (padded, bytesPerRow, height)

/-! ## Claim-side helper definitions and shared lemmas -/

/-- `OnBatteryAction::should_pause` from power_saving.rs lines 51–53. -/
def OnBatteryAction.shouldPause : OnBatteryAction → Bool
  | .pause => true
  | _ => false

/-- The pause condition exactly as claim C1 words it: monitor present and
lid-pause, or battery strictly BELOW the threshold, or on-battery pause. -/
def claimC1PauseCondition (powerMonitor : Option PowerState)
    (config : PowerSavingConfig) : Bool :=
  match powerMonitor with
  | none => false
  | some ps =>
    (config.pause_on_lid_closed && ps.lid_is_closed) ||
    (config.pause_on_low_battery &&
      (match ps.battery_percentage with
       | some pct => decide (pct < (config.low_battery_threshold : ℚ))
       | none => false)) ||
    (ps.on_battery && decide (config.on_battery_action = .pause))

/-- Normal form of the pause policy: the nested if-chain of
`should_pause_animation` is the disjunction of its three conditions. -/
lemma shouldPauseAnimation_some (ps : PowerState) (config : PowerSavingConfig) :
    shouldPauseAnimation (some ps) config =
      ((config.pause_on_lid_closed && ps.lid_is_closed) ||
       (config.pause_on_low_battery &&
         (match ps.battery_percentage with
          | some pct => decide (pct ≤ (config.low_battery_threshold : ℚ))
          | none => false)) ||
       (ps.on_battery && config.on_battery_action.shouldPause)) := by
  simp only [shouldPauseAnimation]
  cases hb : ps.battery_percentage <;> cases ha : config.on_battery_action <;>
    cases config.pause_on_lid_closed <;> cases ps.lid_is_closed <;>
      cases config.pause_on_low_battery <;> cases ps.on_battery <;>
        simp [OnBatteryAction.shouldPause]

/-! ## C1 — the pause policy -/

/-- C1 (counterexample): with `pause_on_low_battery = true` and
`low_battery_threshold = 20`, a reported battery percentage of exactly 20
pauses the animation (the code compares with `<=`), although the claim's
condition — percentage strictly below the threshold — is false, so the
claimed "exactly when" fails at this input. -/
theorem C1_pause_policy_counterexample :
    shouldPauseAnimation
        (some { on_battery := false, battery_percentage := some 20,
                lid_is_closed := false })
        { pause_on_fullscreen := false, pause_on_covered := false,
          coverage_threshold := 90, adjust_on_battery := false,
          on_battery_action := .nothing, pause_on_low_battery := true,
          low_battery_threshold := 20, pause_on_lid_closed := true } = true ∧
    claimC1PauseCondition
        (some { on_battery := false, battery_percentage := some 20,
                lid_is_closed := false })
        { pause_on_fullscreen := false, pause_on_covered := false,
          coverage_threshold := 90, adjust_on_battery := false,
          on_battery_action := .nothing, pause_on_low_battery := true,
          low_battery_threshold := 20, pause_on_lid_closed := true } = false :=
  ⟨by decide, by decide⟩

/-- C1 (amended): rendering is skipped as paused exactly when a power
monitor is present and either the lid-closed pause applies, or
`pause_on_low_battery` is set and the reported battery percentage is AT OR
BELOW `low_battery_threshold`, or the state is on battery with
`on_battery_action = Pause`; with no power monitor nothing is ever paused. -/
theorem C1_pause_policy_amended (powerMonitor : Option PowerState)
    (config : PowerSavingConfig) :
    shouldPauseAnimation powerMonitor config = true ↔
      ∃ ps, powerMonitor = some ps ∧
        ((config.pause_on_lid_closed = true ∧ ps.lid_is_closed = true) ∨
         (config.pause_on_low_battery = true ∧
           ∃ pct, ps.battery_percentage = some pct ∧
             pct ≤ (config.low_battery_threshold : ℚ)) ∨
         (ps.on_battery = true ∧ config.on_battery_action = .pause)) := by
  cases powerMonitor with
  | none => simp [shouldPauseAnimation]
  | some ps =>
    rw [shouldPauseAnimation_some]
    cases hb : ps.battery_percentage <;>
      cases ha : config.on_battery_action <;>
        simp [hb, ha, OnBatteryAction.shouldPause] <;> tauto

/-! ## C2 — the frame callback always re-arms and commits -/

/-- C2: on every frame callback for a layer with attached GPU state, the
handler re-requests a frame callback and commits, whatever the pause state,
the pacing decision, the presence of the renderer, and the surface-texture
acquisition outcome. -/
theorem C2_frame_always_rearms_and_commits (shouldPause shouldRender gpuPresent : Bool)
    (acquire : SurfaceAcquire) (st : FrameLayerState) :
    (frameCallback true shouldPause shouldRender gpuPresent acquire st).2.requestedFrameCallback
        = true ∧
    (frameCallback true shouldPause shouldRender gpuPresent acquire st).2.committed = true := by
  cases shouldPause <;> cases shouldRender <;> cases gpuPresent <;>
    cases acquire <;> simp [frameCallback]

/-! ## C7 — power-saving defaults -/

/-- C7 (code bug): `PowerSavingConfig::default()` sets
`on_battery_action = Pause` — so the struct default pauses whenever the
system is on battery — while the enum's `#[default]` makes loading from an
empty store yield `Nothing`; the two "defaults" disagree, contradicting the
claim that the default action causes no pause and that loading from an
empty store yields the same defaults. -/
theorem C7_default_on_battery_action_pauses :
    PowerSavingConfig.rustDefault.on_battery_action = .pause ∧
    (PowerSavingConfig.load PowerSavingStore.empty).on_battery_action = .nothing ∧
    PowerSavingConfig.load PowerSavingStore.empty ≠ PowerSavingConfig.rustDefault ∧
    shouldPauseAnimation
        (some { on_battery := true, battery_percentage := none,
                lid_is_closed := false })
        PowerSavingConfig.rustDefault = true ∧
    shouldPauseAnimation
        (some { on_battery := true, battery_percentage := none,
                lid_is_closed := false })
        (PowerSavingConfig.load PowerSavingStore.empty) = false ∧
    PowerSavingConfig.rustDefault.pause_on_low_battery = true ∧
    PowerSavingConfig.rustDefault.low_battery_threshold = 20 ∧
    PowerSavingConfig.rustDefault.pause_on_lid_closed = true := by
  refine ⟨rfl, rfl, ?_, ?_, ?_, rfl, rfl, rfl⟩ <;> decide

/-! ## C4 — the reduced-FPS policy is never applied -/

/-- C4 (code bug): with the system on battery and
`on_battery_action = ReduceTo15Fps`, `effective_frame_rate` computes
`Some 15` and `set_frame_rate_override(Some 15)` would set the interval to
1/15 s — but the frame callback (the only per-frame code path) never calls
either, so a canvas configured at 60 fps keeps its 1/60 s interval; in
general no frame callback ever changes any canvas's `frame_interval`. -/
theorem C4_reduced_fps_not_applied :
    effectiveFrameRate
        (some { on_battery := true, battery_percentage := none,
                lid_is_closed := false })
        { pause_on_fullscreen := false, pause_on_covered := false,
          coverage_threshold := 90, adjust_on_battery := true,
          on_battery_action := .reduceTo15Fps, pause_on_low_battery := false,
          low_battery_threshold := 20, pause_on_lid_closed := false }
      = some 15 ∧
    CanvasPacing.setFrameRateOverride
        { configuredFrameRate := 60, frameInterval := 1 / 60 } (some 15)
      = { configuredFrameRate := 60, frameInterval := 1 / 15 } ∧
    (frameCallback true
        (shouldPauseAnimation
          (some { on_battery := true, battery_percentage := none,
                  lid_is_closed := false })
          { pause_on_fullscreen := false, pause_on_covered := false,
            coverage_threshold := 90, adjust_on_battery := true,
            on_battery_action := .reduceTo15Fps, pause_on_low_battery := false,
            low_battery_threshold := 20, pause_on_lid_closed := false })
        true true .ok
        { surfaceConfigDims := (1920, 1080),
          pacing := { configuredFrameRate := 60, frameInterval := 1 / 60 } }).1.pacing.frameInterval
      = 1 / 60 ∧
    (1 : ℚ) / 60 ≠ 1 / 15 ∧
    (∀ (hasGpuState shouldPause shouldRender gpuPresent : Bool)
        (acquire : SurfaceAcquire) (st : FrameLayerState),
      (frameCallback hasGpuState shouldPause shouldRender gpuPresent acquire st).1.pacing
        = st.pacing) := by
  have hpass : ∀ (hasGpuState shouldPause shouldRender gpuPresent : Bool)
      (acquire : SurfaceAcquire) (st : FrameLayerState),
      (frameCallback hasGpuState shouldPause shouldRender gpuPresent acquire st).1.pacing
        = st.pacing := by
    intro hasGpuState shouldPause shouldRender gpuPresent acquire st
    cases hasGpuState <;> cases shouldPause <;> cases shouldRender <;>
      cases gpuPresent <;> cases acquire <;> simp [frameCallback]
  refine ⟨rfl, ?_, ?_, by norm_num, hpass⟩
  · simp [CanvasPacing.setFrameRateOverride]
  · rw [hpass]

/-! ## C9 — the environment scope round-trips -/

/-- Restoring the recorded prior value of `key` undoes a `setVar` on `key`,
whatever value was set in between. -/
lemma restoreVar_setVar (env : EnvMap) (key value : String) :
    restoreVar (setVar env key value) (key, env key) = env := by
  funext x
  rcases h : env key with _ | v0 <;>
    · simp only [restoreVar, setVar, removeVar]
      by_cases hx : x = key <;> simp [hx, h]

/-- C9: applying a user-environment scope and then dropping the guard
restores the process environment exactly — every key's value and presence —
for every ordered list of `(name, value)` pairs, including lists with
duplicate keys, because restoration runs in reverse application order. -/
theorem C9_env_scope_roundtrip (vars : List (String × String)) (env : EnvMap) :
    envGuardDrop (applyVars vars env).2 (applyVars vars env).1 = env := by
  induction vars generalizing env with
  | nil => rfl
  | cons kv rest ih =>
    obtain ⟨key, value⟩ := kv
    show envGuardDrop
        ((key, env key) :: (applyVars rest (setVar env key value)).2)
        (applyVars rest (setVar env key value)).1 = env
    unfold envGuardDrop
    rw [List.reverse_cons, List.foldl_append]
    have hrest := ih (setVar env key value)
    unfold envGuardDrop at hrest
    rw [hrest]
    exact restoreVar_setVar env key value

/-! ## C5 — physical size of configured GPU surfaces -/

/-- C5 (counterexample): a layer with logical size 1920×1080, fractional
scale 180, and a current output mode of 1920×1080: first initialization
configures the surface at the mode's 1920×1080, while the claimed
derivation (`shader_physical_size`, logical size first) yields 2880×1620. -/
theorem C5_surface_size_counterexample :
    initSurfaceConfigDims
        { size := some (1920, 1080), fractionalScale := some 180,
          outputModeDims := some (1920, 1080) } = (1920, 1080) ∧
    shaderPhysicalSize (some (1920, 1080)) (some 180) (some (1920, 1080))
      = (2880, 1620) ∧
    ((1920, 1080) : Nat × Nat) ≠ (2880, 1620) := by
  refine ⟨rfl, by decide, by decide⟩

/-- C5 (amended): on every size/scale reconfiguration the surface is
configured at `shader_physical_size(size, fractional_scale, mode)` (logical
size first); on FIRST initialization it is configured at the current output
mode's dimensions when one exists, and only in the absence of a current
mode does initialization agree with `shader_physical_size`; the
Lost/Outdated recovery path in the frame callback reconfigures at the
previous dimensions, never changing them. -/
theorem C5_surface_size_amended (geom : LayerGeom) :
    updateShaderLayerSurfaceDims geom
        = shaderPhysicalSize geom.size geom.fractionalScale geom.outputModeDims ∧
    initSurfaceConfigDims geom
        = (match geom.outputModeDims with
           | some modeDims => modeDims
           | none => shaderPhysicalSize geom.size geom.fractionalScale none) ∧
    (∀ (hasGpuState shouldPause shouldRender gpuPresent : Bool)
        (acquire : SurfaceAcquire) (st : FrameLayerState),
      (frameCallback hasGpuState shouldPause shouldRender gpuPresent acquire st).1.surfaceConfigDims
        = st.surfaceConfigDims) := by
  refine ⟨rfl, ?_, ?_⟩
  · rcases geom with ⟨size, fractionalScale, outputModeDims⟩
    rcases outputModeDims with _ | ⟨mw, mh⟩ <;> rcases size with _ | ⟨w, h⟩ <;>
      simp [initSurfaceConfigDims, initPhysicalSize, shaderPhysicalSize,
        configureSurface]
  · intro hasGpuState shouldPause shouldRender gpuPresent acquire st
    cases hasGpuState <;> cases shouldPause <;> cases shouldRender <;>
      cases gpuPresent <;> cases acquire <;>
        simp [frameCallback, configureSurface]

/-! ## C6 — when `gpu_state` is attached -/

/-- Does a layer event carry a configure? -/
def LayerEvent.isConfigureEvent : LayerEvent → Bool
  | .configure _ => true
  | _ => false

/-- Does a layer event carry a configure whose canvas construction
succeeds? -/
def LayerEvent.isSuccessfulConfigure : LayerEvent → Bool
  | .configure canvasOk => canvasOk
  | _ => false

/-- Folding `layerStep` preserves `isShader`, accumulates `configured` over
configure events, and accumulates `gpuState` over successful configures of
shader layers. -/
lemma layerStep_foldl (events : List LayerEvent) (st : LayerLife) :
    (events.foldl layerStep st).isShader = st.isShader ∧
    (events.foldl layerStep st).configured
        = (st.configured || events.any LayerEvent.isConfigureEvent) ∧
    (events.foldl layerStep st).gpuState
        = (if st.isShader then
             st.gpuState || events.any LayerEvent.isSuccessfulConfigure
           else st.gpuState) := by
  induction events generalizing st with
  | nil => simp
  | cons e rest ih =>
    obtain ⟨ih1, ih2, ih3⟩ := ih (layerStep st e)
    simp only [List.foldl_cons, List.any_cons]
    refine ⟨?_, ?_, ?_⟩ <;>
      rcases e with ok | _ | _ <;> try cases ok
    all_goals
      cases hs : st.isShader <;> cases hg : st.gpuState <;>
        simp_all [layerStep, LayerEvent.isConfigureEvent,
          LayerEvent.isSuccessfulConfigure, Bool.or_assoc]

/-- C6 (amended): throughout execution a layer's `gpu_state` is `Some`
exactly when its wallpaper's source is a Shader and at least one configure's
fragment-canvas construction succeeded; in particular `gpu_state = Some`
never holds without the layer being a configured shader layer. -/
theorem C6_gpu_state_amended (isShader : Bool) (events : List LayerEvent) :
    (runLayer isShader events).gpuState
        = (isShader && events.any LayerEvent.isSuccessfulConfigure) ∧
    ((runLayer isShader events).gpuState
        && !(runLayer isShader events).configured) = false ∧
    ((runLayer isShader events).gpuState
        && !(runLayer isShader events).isShader) = false := by
  obtain ⟨h1, h2, h3⟩ := layerStep_foldl events (newLayer isShader)
  have hmono : events.any LayerEvent.isSuccessfulConfigure = true →
      events.any LayerEvent.isConfigureEvent = true := by
    intro h
    rw [List.any_eq_true] at h ⊢
    obtain ⟨e, he, hok⟩ := h
    refine ⟨e, he, ?_⟩
    cases e <;> simp_all [LayerEvent.isConfigureEvent,
      LayerEvent.isSuccessfulConfigure]
  unfold runLayer
  rw [h1, h2, h3]
  cases isShader <;> simp [newLayer] <;>
    cases hany : events.any LayerEvent.isSuccessfulConfigure <;>
      simp_all

/-- C6 (counterexample): a shader layer whose only configure fails canvas
construction (e.g. `UnsupportedLanguage(Glsl)`): the layer is a configured
shader layer, yet `gpu_state` is `None`, refuting the claimed "if and only
if". -/
theorem C6_gpu_state_counterexample :
    (runLayer true [LayerEvent.configure false]).isShader = true ∧
    (runLayer true [LayerEvent.configure false]).configured = true ∧
    (runLayer true [LayerEvent.configure false]).gpuState = false :=
  ⟨rfl, rfl, rfl⟩

/-! ## C3 — queue updates on watcher events -/

/-- C3 (code bug): the `Create`/`Rename(To)` branch prepends the unknown
event paths and then immediately retains only queue entries NOT among the
event paths, removing exactly what it just added (and any queued path that
reappears in the event). With an empty queue, a `Create` for `/a.png`
leaves the queue empty; with `/a.png` already queued, the event removes
it. -/
theorem C3_create_event_removes_paths :
    applyImgSourceEvent "all"
        { kind := .create, paths := ["/a.png"] }
        [{ output := "all", image_queue := [] }]
      = [{ output := "all", image_queue := [] }] ∧
    applyImgSourceEvent "all"
        { kind := .create, paths := ["/a.png"] }
        [{ output := "all", image_queue := ["/a.png"] }]
      = [{ output := "all", image_queue := [] }] ∧
    applyImgSourceEvent "all"
        { kind := .create, paths := ["/a.png"] }
        [{ output := "all", image_queue := ["/b.png"] }]
      = [{ output := "all", image_queue := ["/b.png"] }] :=
  ⟨by decide, by decide, by decide⟩

/-! ## C8 — GLSL rejection in canvas construction -/

/-- Does a canvas-construction result carry `UnsupportedLanguage`? -/
def isUnsupportedLanguageError : Except ShaderError CanvasPacing → Bool
  | .error (.unsupportedLanguage _) => true
  | _ => false

/-- Do the I/O steps of canvas construction succeed: the shader text loads
(trivially for inline code) and the background image, when configured,
loads? -/
def loadsSucceed (source : ShaderSource) (fsRead : Option String)
    (imageLoadOk : Bool) : Bool :=
  (match source.shader with
   | .path _ => fsRead.isSome
   | .code _ => true) &&
  (!source.background_image.isSome || imageLoadOk)

/-- C8 (amended): fragment-canvas construction fails with
`UnsupportedLanguage` exactly when the shader text and any background image
load successfully AND the effective language is Glsl; earlier I/O or
image-load failures preempt the language check, and a Wgsl effective
language never produces this error. -/
theorem C8_unsupported_language_amended (source : ShaderSource)
    (fsRead : Option String) (imageLoadOk : Bool) :
    isUnsupportedLanguageError (fragmentCanvasNew source fsRead imageLoadOk)
      = (loadsSucceed source fsRead imageLoadOk
          && decide (detectLanguage source = .glsl)) := by
  have hbuild : ∀ (shaderCode : String),
      isUnsupportedLanguageError (fragmentCanvasBuild source shaderCode imageLoadOk)
        = ((!source.background_image.isSome || imageLoadOk)
            && decide (detectLanguage source = .glsl)) := by
    intro shaderCode
    rcases hbg : source.background_image with _ | img <;>
      cases imageLoadOk <;>
        rcases hl : detectLanguage source with _ | _ <;>
          simp [fragmentCanvasBuild, buildShaderSource, hbg, hl,
            isUnsupportedLanguageError]
  rcases hsh : source.shader with p | code <;> rcases fsRead with _ | text
  · simp [fragmentCanvasNew, hsh, loadsSucceed, isUnsupportedLanguageError]
  · simp only [fragmentCanvasNew, hsh]
    rw [hbuild]
    simp [loadsSucceed, hsh]
  · simp only [fragmentCanvasNew, hsh]
    rw [hbuild]
    simp [loadsSucceed, hsh]
  · simp only [fragmentCanvasNew, hsh]
    rw [hbuild]
    simp [loadsSucceed, hsh]

/-- C8 (counterexample): a shader at a `.frag` path whose file fails to
read: the effective language is Glsl, yet construction fails with the I/O
error, not `UnsupportedLanguage(Glsl)` — refuting the claimed "exactly
when". -/
theorem C8_unsupported_language_counterexample :
    detectLanguage
        { shader := .path { extension := some "frag" },
          background_image := none, language := .wgsl, frame_rate := 30 }
      = .glsl ∧
    fragmentCanvasNew
        { shader := .path { extension := some "frag" },
          background_image := none, language := .wgsl, frame_rate := 30 }
        none true
      = .error .io ∧
    isUnsupportedLanguageError
        (fragmentCanvasNew
          { shader := .path { extension := some "frag" },
            background_image := none, language := .wgsl, frame_rate := 30 }
          none true)
      = false :=
  ⟨by decide, rfl, rfl⟩

/-! ## C10 — row alignment and upload padding -/

/-- The padded buffer built row by row: each block is the source row
followed by `pad` zero bytes. -/
def paddedConcat (rgba : List Nat) (unp pad : Nat) : Nat → List Nat
  | 0 => []
  | n + 1 =>
    paddedConcat rgba unp pad n
      ++ ((rgba.drop (n * unp)).take unp ++ List.replicate pad 0)

lemma paddedConcat_length (rgba : List Nat) (unp pad : Nat) :
    ∀ n, unp * n ≤ rgba.length →
      (paddedConcat rgba unp pad n).length = (unp + pad) * n := by
  intro n
  induction n with
  | zero => simp [paddedConcat]
  | succ m ih =>
    intro h
    have e1 : unp * (m + 1) = unp * m + unp := by ring
    have e2 : m * unp = unp * m := by ring
    have e3 : (unp + pad) * (m + 1) = (unp + pad) * m + (unp + pad) := by ring
    have hm : unp * m ≤ rgba.length := by omega
    simp [paddedConcat, ih hm]
    omega

/-- A slice write confined to the first summand of an append. -/
lemma writeSlice_append (A B src : List Nat) (off : Nat)
    (h : off + src.length ≤ A.length) :
    writeSlice (A ++ B) off src = writeSlice A off src ++ B := by
  unfold writeSlice
  rw [List.take_append_of_le_length (by omega),
    List.drop_append_of_le_length (by omega)]
  simp [List.append_assoc]

/-- The row loop body under in-range u32 offsets. -/
lemma uploadWriteRow_eq (rgba padded : List Nat) (unp bpr row : Nat)
    (h1 : row * unp < 2 ^ 32) (h2 : row * bpr < 2 ^ 32) :
    uploadWriteRow rgba unp bpr padded row
      = writeSlice padded (row * bpr) ((rgba.drop (row * unp)).take unp) := by
  simp only [uploadWriteRow, u32Mul]
  rw [Nat.mod_eq_of_lt h1, Nat.mod_eq_of_lt h2, Nat.add_sub_cancel_left]

/-- Folding the row loop over an all-zero buffer of `n` aligned rows (with
any suffix `B` beyond them) produces the row-by-row padded concatenation. -/
lemma uploadRows_eq (rgba : List Nat) (unp bpr : Nat) (hub : unp ≤ bpr) :
    ∀ (n : Nat) (B : List Nat), unp * n ≤ rgba.length → bpr * n < 2 ^ 32 →
      (List.range n).foldl (uploadWriteRow rgba unp bpr)
          (List.replicate (bpr * n) 0 ++ B)
        = paddedConcat rgba unp (bpr - unp) n ++ B := by
  intro n
  induction n with
  | zero => intro B _ _; simp [paddedConcat]
  | succ m ih =>
    intro B h1 h2
    have e1 : unp * (m + 1) = unp * m + unp := by ring
    have e2 : bpr * (m + 1) = bpr * m + bpr := by ring
    have e3 : m * unp = unp * m := by ring
    have e4 : m * bpr = bpr * m := by ring
    have e5 : unp * m ≤ bpr * m := Nat.mul_le_mul_right m hub
    have hm1 : unp * m ≤ rgba.length := by omega
    have hm2 : bpr * m < 2 ^ 32 := by omega
    have hrowlen : ((rgba.drop (m * unp)).take unp).length = unp := by
      simp
      omega
    have hPlen : (paddedConcat rgba unp (bpr - unp) m).length = bpr * m := by
      rw [paddedConcat_length rgba unp (bpr - unp) m hm1,
        show unp + (bpr - unp) = bpr by omega]
    have hAlen : (paddedConcat rgba unp (bpr - unp) m
        ++ List.replicate bpr (0 : Nat)).length = bpr * m + bpr := by
      simp [hPlen]
    rw [List.range_succ, List.foldl_append]
    have hsplit : List.replicate (bpr * (m + 1)) (0 : Nat) ++ B
        = List.replicate (bpr * m) 0 ++ (List.replicate bpr 0 ++ B) := by
      rw [Nat.mul_succ, List.replicate_add, List.append_assoc]
    rw [hsplit, ih (List.replicate bpr 0 ++ B) hm1 hm2]
    simp only [List.foldl_cons, List.foldl_nil]
    rw [uploadWriteRow_eq rgba _ unp bpr m (by omega) (by omega)]
    rw [← List.append_assoc, writeSlice_append _ _ _ _ (by omega)]
    unfold writeSlice
    rw [hrowlen, List.take_append_of_le_length (by omega),
      List.take_of_length_le (by omega)]
    rw [show m * bpr + unp
          = (paddedConcat rgba unp (bpr - unp) m).length + unp by omega]
    rw [List.drop_append unp, List.drop_replicate]
    simp [paddedConcat, List.append_assoc]

/-- Extracting the first `unp` bytes of row `r` from the padded
concatenation yields the source row. -/
lemma paddedConcat_extract (rgba : List Nat) (unp bpr : Nat) (hub : unp ≤ bpr) :
    ∀ n r, r < n → unp * n ≤ rgba.length →
      ((paddedConcat rgba unp (bpr - unp) n).drop (r * bpr)).take unp
        = (rgba.drop (r * unp)).take unp := by
  intro n
  induction n with
  | zero => omega
  | succ m ih =>
    intro r hr h1
    have e1 : unp * (m + 1) = unp * m + unp := by ring
    have e3 : m * unp = unp * m := by ring
    have hm1 : unp * m ≤ rgba.length := by omega
    have hrowlen : ((rgba.drop (m * unp)).take unp).length = unp := by
      simp
      omega
    have hPlen : (paddedConcat rgba unp (bpr - unp) m).length = bpr * m := by
      rw [paddedConcat_length rgba unp (bpr - unp) m hm1,
        show unp + (bpr - unp) = bpr by omega]
    rcases Nat.lt_succ_iff_lt_or_eq.mp hr with hlt | heq
    · have e6 : (r + 1) * bpr ≤ m * bpr := Nat.mul_le_mul_right bpr hlt
      have e7 : (r + 1) * bpr = r * bpr + bpr := by ring
      have e8 : m * bpr = bpr * m := by ring
      have hoff : r * bpr + bpr ≤ bpr * m := by omega
      have hdroplen : unp ≤
          ((paddedConcat rgba unp (bpr - unp) m).drop (r * bpr)).length := by
        rw [List.length_drop, hPlen]
        omega
      show ((paddedConcat rgba unp (bpr - unp) m
          ++ ((rgba.drop (m * unp)).take unp ++ List.replicate (bpr - unp) 0)).drop
            (r * bpr)).take unp = _
      rw [List.drop_append_of_le_length (by omega),
        List.take_append_of_le_length hdroplen]
      exact ih r hlt hm1
    · subst heq
      show ((paddedConcat rgba unp (bpr - unp) r
          ++ ((rgba.drop (r * unp)).take unp ++ List.replicate (bpr - unp) 0)).drop
            (r * bpr)).take unp = _
      have e8 : r * bpr = bpr * r := by ring
      have hPlenr : (paddedConcat rgba unp (bpr - unp) r).length = bpr * r := by
        rw [paddedConcat_length rgba unp (bpr - unp) r (by omega),
          show unp + (bpr - unp) = bpr by omega]
      have hrowlenr : ((rgba.drop (r * unp)).take unp).length = unp := by
        have e9 : unp * (r + 1) = unp * r + unp := by ring
        have e10 : r * unp = unp * r := by ring
        simp
        omega
      rw [show r * bpr = (paddedConcat rgba unp (bpr - unp) r).length by omega]
      rw [show (paddedConcat rgba unp (bpr - unp) r).length
            = (paddedConcat rgba unp (bpr - unp) r).length + 0 by omega]
      rw [List.drop_append 0, List.drop_zero,
        List.take_append_of_le_length (by omega),
        List.take_of_length_le (by omega)]

/-- C10 (amended): for every width and height whose byte counts stay within
u32 (no overflow in the saturating multiply, the alignment round-up, or the
buffer-size product), `aligned_bytes_per_row(w,4)` is a multiple of the
256-byte copy alignment, is at least `w*4`, with equality exactly when
`w*4` is already aligned; and `texture_upload_data` on a `w*h*4`-byte input
returns that value as `bytes_per_row`, `h` as `rows_per_image`, and a
buffer of exactly `bytes_per_row*h` bytes whose first `w*4` bytes of each
row equal the corresponding input row. -/
theorem C10_alignment_amended (width height : Nat) (rgba : List Nat)
    (hw : width * 4 + COPY_BYTES_PER_ROW_ALIGNMENT ≤ 2 ^ 32)
    (hlen : rgba.length = width * 4 * height)
    (hbh : alignedBytesPerRow width 4 * height < 2 ^ 32) :
    COPY_BYTES_PER_ROW_ALIGNMENT ∣ alignedBytesPerRow width 4 ∧
    width * 4 ≤ alignedBytesPerRow width 4 ∧
    (alignedBytesPerRow width 4 = width * 4 ↔
      COPY_BYTES_PER_ROW_ALIGNMENT ∣ width * 4) ∧
    (textureUploadData rgba width height).2.1 = alignedBytesPerRow width 4 ∧
    (textureUploadData rgba width height).2.2 = height ∧
    (textureUploadData rgba width height).1.length
        = alignedBytesPerRow width 4 * height ∧
    (∀ r, r < height →
      ((textureUploadData rgba width height).1.drop
          (r * alignedBytesPerRow width 4)).take (width * 4)
        = (rgba.drop (r * (width * 4))).take (width * 4)) := by
  simp only [COPY_BYTES_PER_ROW_ALIGNMENT] at hw ⊢
  have hsat : u32SatMul width 4 = width * 4 := by
    simp only [u32SatMul]
    omega
  have habr : alignedBytesPerRow width 4 = (width * 4 + 255) / 256 * 256 := by
    simp only [alignedBytesPerRow, COPY_BYTES_PER_ROW_ALIGNMENT, hsat]
    rw [Nat.mod_eq_of_lt (by omega)]
    omega
  have hdvd : 256 ∣ alignedBytesPerRow width 4 :=
    ⟨(width * 4 + 255) / 256, by rw [habr]; ring⟩
  have hge : width * 4 ≤ alignedBytesPerRow width 4 := by
    rw [habr]; omega
  have hiff : alignedBytesPerRow width 4 = width * 4 ↔ 256 ∣ width * 4 := by
    rw [habr, Nat.dvd_iff_mod_eq_zero]
    omega
  refine ⟨hdvd, hge, hiff, ?_⟩
  by_cases hcase : alignedBytesPerRow width 4 = width * 4
  · have hif : textureUploadData rgba width height
        = (rgba, alignedBytesPerRow width 4, height) := by
      simp only [textureUploadData, hsat]
      rw [if_pos hcase]
    rw [hif]
    refine ⟨rfl, rfl, ?_, ?_⟩
    · rw [hcase, hlen]
    · intro r _
      rw [hcase]
  · have hub : width * 4 ≤ alignedBytesPerRow width 4 := hge
    have hmul : u32Mul (alignedBytesPerRow width 4) height
        = alignedBytesPerRow width 4 * height := by
      simp only [u32Mul]
      exact Nat.mod_eq_of_lt hbh
    have hrglen : width * 4 * height ≤ rgba.length := le_of_eq hlen.symm
    have hif : textureUploadData rgba width height
        = (paddedConcat rgba (width * 4)
            (alignedBytesPerRow width 4 - width * 4) height,
           alignedBytesPerRow width 4, height) := by
      simp only [textureUploadData, hsat]
      rw [if_neg hcase, hmul]
      rw [← List.append_nil
        (List.replicate (alignedBytesPerRow width 4 * height) (0 : Nat))]
      rw [uploadRows_eq rgba (width * 4) (alignedBytesPerRow width 4) hub
        height [] hrglen hbh]
      rw [List.append_nil]
    rw [hif]
    refine ⟨rfl, rfl, ?_, ?_⟩
    · rw [paddedConcat_length rgba (width * 4)
        (alignedBytesPerRow width 4 - width * 4) height hrglen,
        show width * 4 + (alignedBytesPerRow width 4 - width * 4)
          = alignedBytesPerRow width 4 by omega]
    · intro r hr
      exact paddedConcat_extract rgba (width * 4) (alignedBytesPerRow width 4)
        hub height r hr hrglen

/-- C10 (counterexample): at width `2^30` the u32 computation overflows:
`saturating_mul` caps `w*4` at `2^32 − 1`, the `+ 255` wraps, and
`aligned_bytes_per_row(2^30, 4) = 0`, which is not `≥ w*4` — so the claim,
quantified over every width, fails. -/
theorem C10_alignment_counterexample :
    alignedBytesPerRow (2 ^ 30) 4 = 0 ∧
    ¬ (2 ^ 30 * 4 ≤ alignedBytesPerRow (2 ^ 30) 4) :=
  ⟨by decide, by decide⟩

/-- Witness: the amended C10 theorem applied at width 1, height 2, and an
8-byte input, its hypotheses discharged by computation. -/
theorem C10_alignment_amended_witness :
    (1 * 4 + COPY_BYTES_PER_ROW_ALIGNMENT ≤ 2 ^ 32) ∧
    (List.replicate 8 (1 : Nat)).length = 1 * 4 * 2 ∧
    alignedBytesPerRow 1 4 * 2 < 2 ^ 32 ∧
    (textureUploadData (List.replicate 8 1) 1 2).1.length
        = alignedBytesPerRow 1 4 * 2 :=
  ⟨by decide, by decide, by decide,
   (C10_alignment_amended 1 2 (List.replicate 8 1) (by decide) (by decide)
     (by decide)).2.2.2.2.2.1⟩

end Glowberry
